/-
Verification of the request-dispatch core of selfhost-dashboard
(src/route.rs) against its natural-language specification.

Rust strings are modelled as Lean `String` where the code treats them
opaquely, and as `List Char` where the code inspects their characters
(the path-validation layer).  Raw process/file bytes are modelled as
`List Nat`.  External effects (the user database, the filesystem, spawned
processes) are modelled as explicit oracle values passed to the handler
functions, at exactly the call boundary where the Rust code performs the
effect, so every handler is a pure function of the request data and the
outcomes of its external calls.
-/
import Mathlib

namespace Route

/-! ## String containment (model of Rust `str::contains`) -/

/-- Model of Rust `str::contains` for a string pattern: `needle` occurs as a
contiguous substring of `hay`. -/
def strContains (needle : List Char) : List Char → Bool
  | [] => needle.isPrefixOf []
  | c :: t => needle.isPrefixOf (c :: t) || strContains needle t

/-! ## Safe path resolver (route.rs lines 174-247) -/

/-- Translation of `DirectoryTraversalError` (route.rs line 247). -/
inductive DirectoryTraversalError where
  | mk
deriving DecidableEq

/-- Pattern string of the leading-traversal check in route.rs line 219. -/
def dotDotSlash : List Char := ['.', '.', '/']

/-- Pattern string of the trailing-traversal check in route.rs line 219. -/
def slashDotDot : List Char := ['/', '.', '.']

/-- Pattern string of the embedded-traversal check in route.rs line 219. -/
def slashDotDotSlash : List Char := ['/', '.', '.', '/']

/-- Bare double-dot pattern, used to state the traversal-freedom claims. -/
def dotDot : List Char := ['.', '.']

/-- Translation of `impl TryFrom<String> for SafeResourcePath<String>`
(route.rs lines 215-225); the borrowed-string impl on lines 227-237 performs
the identical check.  The validated payload is returned unchanged. -/
def safeResourcePath_try_from (value : List Char) :
    Except DirectoryTraversalError (List Char) :=
  if dotDotSlash.isPrefixOf value || slashDotDot.isSuffixOf value
      || strContains slashDotDotSlash value then
    .error .mk
  else
    .ok value

/-- Translation of the prefixing method of SafeResourcePath (route.rs
lines 176-180): the source formats the trusted root, a slash, then the
validated path.  Named prefixRoot because Lean reserves the source's
method name. -/
def prefixRoot (path root : List Char) : List Char :=
  root ++ '/' :: path

/-! ## UTF-8 decoding (model of Rust `String::from_utf8` and the UTF-8
validation inside `std::fs::read_to_string`) -/

/-- Continuation-byte test of the UTF-8 encoding. -/
def isUtf8Cont (b : Nat) : Bool := 0x80 ≤ b && b ≤ 0xBF

/-- Model of Rust UTF-8 validation and decoding (RFC 3629): returns the
character sequence when the byte sequence is valid UTF-8 and `none`
otherwise, rejecting overlong forms, surrogates and out-of-range values
exactly as `String::from_utf8` does. -/
def utf8Decode : List Nat → Option (List Char)
  | [] => some []
  | b :: rest =>
    if b ≤ 0x7F then
      (utf8Decode rest).map (fun cs => Char.ofNat b :: cs)
    else if 0xC2 ≤ b && b ≤ 0xDF then
      match rest with
      | b1 :: rest' =>
        if isUtf8Cont b1 then
          (utf8Decode rest').map
            (fun cs => Char.ofNat ((b - 0xC0) * 0x40 + (b1 - 0x80)) :: cs)
        else none
      | [] => none
    else if 0xE0 ≤ b && b ≤ 0xEF then
      match rest with
      | b1 :: b2 :: rest' =>
        if (if b = 0xE0 then 0xA0 ≤ b1 && b1 ≤ 0xBF
            else if b = 0xED then 0x80 ≤ b1 && b1 ≤ 0x9F
            else isUtf8Cont b1) && isUtf8Cont b2 then
          (utf8Decode rest').map
            (fun cs => Char.ofNat
              ((b - 0xE0) * 0x1000 + (b1 - 0x80) * 0x40 + (b2 - 0x80)) :: cs)
        else none
      | _ => none
    else if 0xF0 ≤ b && b ≤ 0xF4 then
      match rest with
      | b1 :: b2 :: b3 :: rest' =>
        if (if b = 0xF0 then 0x90 ≤ b1 && b1 ≤ 0xBF
            else if b = 0xF4 then 0x80 ≤ b1 && b1 ≤ 0x8F
            else isUtf8Cont b1) && isUtf8Cont b2 && isUtf8Cont b3 then
          (utf8Decode rest').map
            (fun cs => Char.ofNat
              ((b - 0xF0) * 0x40000 + (b1 - 0x80) * 0x1000
                + (b2 - 0x80) * 0x40 + (b3 - 0x80)) :: cs)
        else none
      | _ => none
    else none

/-- Byte sequence of an ASCII string, used to build concrete process and
file contents in witnesses. -/
def asciiBytes (s : String) : List Nat := s.data.map Char.toNat

/-- Whitespace test used by `trimSpec`. -/
def isWhitespaceChar (c : Char) : Bool :=
  c == ' ' || c == '\t' || c == '\n' || c == '\r'

/-- Modelled from the spec's words, for comparison against the source in
claim C5 only: trimming the surrounding whitespace from a character
sequence. -/
def trimSpec (cs : List Char) : List Char :=
  ((cs.dropWhile isWhitespaceChar).reverse.dropWhile isWhitespaceChar).reverse

/-! ## Response builder (the `crate::webserver` interface) -/

/-- Modelled from the spec: the redirect kinds offered by the webserver
crate, which is outside this repository's shown sources; the spec fixes
`SeeOther` redirects at status 303. -/
inductive RedirectKind where
  | SeeOther
  | Temporary
deriving DecidableEq

/-- Modelled from the spec: the response builder offered by the webserver
crate (outside the shown sources).  It records the HTTP status, body,
content type, the set cookies as (name, value, max-age) triples in the
order they were set, and the redirect target when the response is a
redirect. -/
structure ResponseBuilder where
  status : Nat
  body : String
  content_type : Option String
  cookies : List (String × String × Option Nat)
  location : Option String
deriving DecidableEq

/-- Modelled from the spec: `ResponseBuilder::with_status`. -/
def with_status (status : Nat) : ResponseBuilder :=
  { status := status, body := "", content_type := none, cookies := [],
    location := none }

/-- Modelled from the spec: `ResponseBuilder::set_body`. -/
def ResponseBuilder.set_body (b : ResponseBuilder) (body : String) :
    ResponseBuilder :=
  { b with body := body }

/-- Modelled from the spec: `ResponseBuilder::set_content_type`. -/
def ResponseBuilder.set_content_type (b : ResponseBuilder) (ct : String) :
    ResponseBuilder :=
  { b with content_type := some ct }

/-- Modelled from the spec: `ResponseBuilder::set_cookie` appends a
(name, value, max-age) cookie. -/
def ResponseBuilder.set_cookie (b : ResponseBuilder) (name value : String)
    (max_age : Option Nat) : ResponseBuilder :=
  { b with cookies := b.cookies ++ [(name, value, max_age)] }

/-- Modelled from the spec: `ResponseBuilder::redirect`; the spec fixes
see-other redirects at status 303; temporary redirects use the standard
HTTP temporary-redirect status. -/
def redirect (url : String) (kind : RedirectKind) : ResponseBuilder :=
  { status := match kind with | .SeeOther => 303 | .Temporary => 307,
    body := "", content_type := none, cookies := [], location := some url }

/-! ## Error taxonomy and response mapper (route.rs lines 16-97) -/

/-- Translation of `enum Error` (route.rs lines 16-24). -/
inductive Error where
  | NotAuthorized
  | Forbidden (message : String)
  | InvalidData (message : String)
  | NotFound
  | InternalServerError
  | RedirectToLogin
  | RedirectToRegistration
deriving DecidableEq

/-- Translation of `Error::response` (route.rs lines 63-97). -/
def Error.response (error : Error) (pfx : String) : ResponseBuilder :=
  match error with
  | .NotAuthorized => (with_status 401).set_body "Not authorized"
  | .Forbidden message => (with_status 403).set_body ("Forbidden: " ++ message)
  | .InvalidData message =>
      (with_status 400).set_body ("Invalid request: " ++ message)
  | .NotFound => (with_status 404).set_body "Not found"
  | .InternalServerError => (with_status 500).set_body "Internal server error"
  | .RedirectToLogin => redirect (pfx ++ "/login") .SeeOther
  | .RedirectToRegistration =>
      redirect (pfx ++ "/login#uninitialized=true") .SeeOther

/-- Translation of the error arm of `route` (route.rs lines 373-380): a
handler error is converted to a response through `Error::response`. -/
def handle_result (pfx : String) (r : Except Error ResponseBuilder) :
    ResponseBuilder :=
  match r with
  | .ok response => response
  | .error error => error.response pfx

/-! ## Authentication gate policies (route.rs lines 39-61) -/

/-- Translation of `crate::login::RequestError`, whose five variants are
enumerated by the match arms of `api_auth` and `view_auth`. -/
inductive RequestError where
  | MissingCookies
  | BadCookies
  | NoUserRegistered
  | InternalError
  | InvalidUserName
deriving DecidableEq

/-- Translation of `api_auth` (route.rs lines 39-49). -/
def api_auth (error : RequestError) : Error :=
  match error with
  | .MissingCookies => .NotAuthorized
  | .BadCookies => .NotAuthorized
  | .NoUserRegistered => .NotAuthorized
  | .InternalError => .InternalServerError
  | .InvalidUserName => .InvalidData "invalid user name"

/-- Translation of `view_auth` (route.rs lines 51-61). -/
def view_auth (error : RequestError) : Error :=
  match error with
  | .MissingCookies => .RedirectToLogin
  | .BadCookies => .RedirectToLogin
  | .NoUserRegistered => .RedirectToRegistration
  | .InternalError => .InternalServerError
  | .InvalidUserName => .RedirectToLogin

/-! ## Static asset server (route.rs lines 249-332) -/

/-- Translation of `not_found` (route.rs lines 364-371). -/
def not_found : ResponseBuilder :=
  (((with_status 404).set_body "Error: Page not found").set_content_type
    "text/html")

/-- Translation of `internal_server_error` (route.rs lines 249-255). -/
def internal_server_error : ResponseBuilder :=
  (with_status 500).set_body "Internal server error"

/-- Filesystem oracle: `pathExists` models `Path::new(p).exists()` and
`readBytes` models reading the raw bytes of a file, returning an error
message on an I/O failure. -/
structure Fs where
  pathExists : String → Bool
  readBytes : String → Except String (List Nat)

/-- Model of Rust `std::fs::read_to_string`: reads the file's bytes and
then requires them to be valid UTF-8, failing with an InvalidData-style
error otherwise (Rust standard-library semantics). -/
def read_to_string (fs : Fs) (p : String) : Except String String :=
  match fs.readBytes p with
  | .error e => .error e
  | .ok bs =>
    match utf8Decode bs with
    | some cs => .ok (String.mk cs)
    | none => .error "stream did not contain valid UTF-8"

/-- Content-type resolution step of `serve_static_abs` (route.rs lines
296-307): a supplied content type is used as is; otherwise the outcome of
the `scan_content_type` call (whose interesting part runs an external
process) decides, an error leading to a 500 response. -/
def resolve_content_type (content_type : Option String)
    (scan_result : Except Unit String) : Except Unit String :=
  match content_type with
  | some ct => .ok ct
  | none => scan_result

/-- Translation of `serve_static_abs` (route.rs lines 285-324), with the
filesystem and the content-type scan supplied as oracles. -/
def serve_static_abs (fs : Fs) (abs_path : String)
    (content_type : Option String) (scan_result : Except Unit String) :
    ResponseBuilder :=
  if fs.pathExists abs_path = false then
    not_found
  else
    match resolve_content_type content_type scan_result with
    | .error _ => internal_server_error
    | .ok ct =>
      match read_to_string fs abs_path with
      | .error _ => internal_server_error
      | .ok file_contents =>
        ((with_status 200).set_body file_contents).set_content_type ct

/-! ## Application launch authorizer (route.rs lines 334-362, 499-531) -/

/-- Outcome of waiting on a spawned entry-point process: the exit code
(`none` when the process was killed by a signal, mirroring
`ExitStatus::code`), and the raw bytes of the captured standard output and
standard error. -/
structure Output where
  status : Option Int
  stdout : List Nat
  stderr : List Nat
deriving DecidableEq

/-- Translation of `open_dynamic` (route.rs lines 334-362).  The argument
is the result of spawning the entry-point process: `none` when the spawn
itself failed, otherwise the process output.  `ExitStatus::success` is exit
code 0; stderr is decoded only for logging, but the decode result is
matched exactly as in the source. -/
def open_dynamic (spawn_result : Option Output) : Except Error String :=
  match spawn_result with
  | none => .error .InternalServerError
  | some output =>
    if output.status = some 0 then
      match utf8Decode output.stdout with
      | some cs => .ok (String.mk cs)
      | none => .error .InternalServerError
    else
      let is_internal :=
        match output.status, utf8Decode output.stderr with
        | some 1, some _ => false
        | some 1, none => false
        | some _, some _ => true
        | some _, none => true
        | none, some _ => true
        | none, none => true
      .error (if is_internal then Error.InternalServerError
              else Error.Forbidden "You are not allowed to access this application")

/-- Modelled from the spec: an application entry point is either a static
redirect URL or a marker requiring dynamic authorization
(`crate::apps::config::EntryPoint`, outside the shown sources). -/
inductive EntryPoint where
  | Static (url : String)
  | Dynamic
deriving DecidableEq

/-- Translation of the entry-point dispatch of the `/open_app` handler
(route.rs lines 522-531): a static entry point redirects to its configured
URL, a dynamic one redirects to the URL produced by `open_dynamic`. -/
def open_app_entry (entry_point : EntryPoint) (spawn_result : Option Output) :
    Except Error ResponseBuilder :=
  match entry_point with
  | .Static url => .ok (redirect url .Temporary)
  | .Dynamic => (open_dynamic spawn_result).map (fun url => redirect url .Temporary)

/-! ## Logout handler (route.rs lines 533-544) -/

/-- Modelled from the spec: `user::Authenticated` (outside the shown
sources) carries the authenticated user's name and administrator flag. -/
structure Authenticated where
  name : String
  is_admin : Bool
deriving DecidableEq

/-- Translation of the `/logout` branch of `route_raw` (route.rs lines
533-544): authentication maps its failure through `view_auth`; the
backing-store logout call maps its failure to `InternalServerError`; on
success the response redirects to the login page and expires both
cookies. -/
def logout_handler (pfx : String) (auth : Except RequestError Authenticated)
    (logout_result : Except String Unit) : Except Error ResponseBuilder :=
  match auth with
  | .error e => .error (view_auth e)
  | .ok _user =>
    match logout_result with
    | .error _ => .error .InternalServerError
    | .ok _ =>
      .ok (((redirect (pfx ++ "/login") .SeeOther).set_cookie
              "user_name" "" (some 0)).set_cookie "auth_token" "" (some 0))

/-! ## Login state machine (route.rs lines 435-498) -/

/-- Translation of the success payload of `crate::login::check_login`: the
stored user name and the freshly issued session cookie, as used on route.rs
lines 456-460. -/
structure LoginSuccess where
  name : String
  cookie : String
deriving DecidableEq

/-- Translation of `crate::login::LoginError`, whose three variants are
enumerated by the match arms on route.rs lines 462-496. -/
inductive LoginError where
  | BadUserPassword
  | DbGetUserError (error : String)
  | DbSetCookieError (error : String)
deriving DecidableEq

/-- Translation of `crate::user::InsertError`, whose two variants are
enumerated by the match arms on route.rs lines 476-483. -/
inductive InsertError where
  | UserExists
  | DatabaseError (error : String)
deriving DecidableEq

/-- Translation of the credential-check dispatch of the `POST /login`
branch of `route_raw` (route.rs lines 449-497), after the form fields have
been extracted and the user name validated.  `check_result` is the outcome
of the `check_login` call and `signup_result` the outcome the `signup`
call would have (it is consulted only on the admin bootstrap path). -/
def login_post (pfx : String) (name password : String)
    (check_result : Except LoginError LoginSuccess)
    (signup_result : Except InsertError String) : Except Error ResponseBuilder :=
  match check_result with
  | .ok success =>
      .ok (((redirect pfx .SeeOther).set_cookie
              "user_name" success.name (some 31536000)).set_cookie
              "auth_token" success.cookie (some 31536000))
  | .error .BadUserPassword =>
      if name = "admin" then
        match signup_result with
        | .ok cookie =>
            .ok (((redirect pfx .SeeOther).set_cookie
                    "user_name" name (some 31536000)).set_cookie
                    "auth_token" cookie (some 31536000))
        | .error .UserExists => .error .RedirectToLogin
        | .error (.DatabaseError _) => .error .InternalServerError
      else
        .error .RedirectToLogin
  | .error (.DbGetUserError _) => .error .RedirectToLogin
  | .error (.DbSetCookieError _) => .error .RedirectToLogin

/-! ## Helper lemmas about substring occurrence -/

theorem strContains_iff {needle hay : List Char} :
    strContains needle hay = true ↔ needle <:+: hay := by
  induction hay with
  | nil => simp [strContains, List.isPrefixOf_iff_prefix]
  | cons c t ih =>
    rw [strContains, Bool.or_eq_true, ih, List.isPrefixOf_iff_prefix,
      ← List.infix_cons_iff]

theorem strContains_eq_false_iff {needle hay : List Char} :
    strContains needle hay = false ↔ ¬ needle <:+: hay := by
  rw [← strContains_iff]
  cases strContains needle hay <;> simp

theorem try_from_cond_iff (s : List Char) :
    (dotDotSlash.isPrefixOf s || slashDotDot.isSuffixOf s
      || strContains slashDotDotSlash s) = true ↔
    (dotDotSlash <+: s ∨ slashDotDot <:+ s ∨ slashDotDotSlash <:+: s) := by
  simp [ List.isPrefixOf_iff_prefix, List.isSuffixOf_iff_suffix,
    strContains_iff, or_assoc]

theorem try_from_error_iff (s : List Char) :
    safeResourcePath_try_from s = .error .mk ↔
      (dotDotSlash <+: s ∨ slashDotDot <:+ s ∨ slashDotDotSlash <:+: s) := by
  rw [← try_from_cond_iff]
  unfold safeResourcePath_try_from
  split <;> simp_all

theorem try_from_ok_iff (s : List Char) :
    safeResourcePath_try_from s = .ok s ↔
      ¬ (dotDotSlash <+: s ∨ slashDotDot <:+ s ∨ slashDotDotSlash <:+: s) := by
  rw [← try_from_cond_iff]
  unfold safeResourcePath_try_from
  split <;> simp_all

theorem prefix_append_decomp {α : Type} {t a b : List α} (h : t <+: a ++ b) :
    t <+: a ∨ ∃ s, t = a ++ s ∧ s <+: b := by
  induction a generalizing t with
  | nil => exact Or.inr ⟨t, rfl, h⟩
  | cons c a' ih =>
    cases t with
    | nil => exact Or.inl (by simp)
    | cons d t' =>
      rw [List.cons_append, List.cons_prefix_cons] at h
      obtain ⟨rfl, h'⟩ := h
      rcases ih h' with h2 | ⟨s, rfl, hs⟩
      · exact Or.inl (List.cons_prefix_cons.mpr ⟨rfl, h2⟩)
      · exact Or.inr ⟨s, rfl, hs⟩

theorem suffix_append_decomp {α : Type} {t a b : List α} (h : t <:+ a ++ b) :
    t <:+ b ∨ ∃ s, t = s ++ b ∧ s <:+ a := by
  have h' : t.reverse <+: b.reverse ++ a.reverse := by
    rw [← List.reverse_append]
    exact h.reverse
  rcases prefix_append_decomp h' with h2 | ⟨s, hs, h3⟩
  · left
    have h4 := h2.reverse
    simpa using h4
  · right
    refine ⟨s.reverse, ?_, ?_⟩
    · have h5 := congrArg List.reverse hs
      simpa [List.reverse_append] using h5
    · have h6 := h3.reverse
      simpa using h6

theorem infix_append_decomp {α : Type} {t a b : List α} (h : t <:+: a ++ b) :
    t <:+: a ∨ t <:+: b ∨
      ∃ s₁ s₂, t = s₁ ++ s₂ ∧ s₁ ≠ [] ∧ s₂ ≠ [] ∧ s₁ <:+ a ∧ s₂ <+: b := by
  induction a generalizing t with
  | nil => exact Or.inr (Or.inl h)
  | cons c a' ih =>
    rw [List.cons_append, List.infix_cons_iff] at h
    rcases h with h | h
    · cases t with
      | nil => exact Or.inl (by simp)
      | cons d t' =>
        rw [List.cons_prefix_cons] at h
        obtain ⟨rfl, h'⟩ := h
        rcases prefix_append_decomp h' with h2 | ⟨s, rfl, hs⟩
        · exact Or.inl (List.cons_prefix_cons.mpr ⟨rfl, h2⟩).isInfix
        · cases s with
          | nil => exact Or.inl (by simp)
          | cons e s' =>
            exact Or.inr (Or.inr
              ⟨d :: a', e :: s', rfl, by simp, by simp, List.suffix_rfl, hs⟩)
    · rcases ih h with h2 | h2 | ⟨s₁, s₂, rfl, h1, h2, h3, h4⟩
      · exact Or.inl (List.infix_cons h2)
      · exact Or.inr (Or.inl h2)
      · exact Or.inr (Or.inr
          ⟨s₁, s₂, rfl, h1, h2, h3.trans (List.suffix_cons c a'), h4⟩)

theorem append_eq_two {α : Type} {s₁ s₂ : List α} {x y : α}
    (h : s₁ ++ s₂ = [x, y]) :
    (s₁ = [] ∧ s₂ = [x, y]) ∨ (s₁ = [x] ∧ s₂ = [y]) ∨
      (s₁ = [x, y] ∧ s₂ = []) := by
  rcases s₁ with _ | ⟨a, _ | ⟨b, t⟩⟩ <;> simp_all

theorem append_eq_three {α : Type} {s₁ s₂ : List α} {x y z : α}
    (h : s₁ ++ s₂ = [x, y, z]) :
    (s₁ = [] ∧ s₂ = [x, y, z]) ∨ (s₁ = [x] ∧ s₂ = [y, z]) ∨
      (s₁ = [x, y] ∧ s₂ = [z]) ∨ (s₁ = [x, y, z] ∧ s₂ = []) := by
  rcases s₁ with _ | ⟨a, _ | ⟨b, _ | ⟨c, t⟩⟩⟩ <;> simp_all

theorem append_eq_four {α : Type} {s₁ s₂ : List α} {w x y z : α}
    (h : s₁ ++ s₂ = [w, x, y, z]) :
    (s₁ = [] ∧ s₂ = [w, x, y, z]) ∨ (s₁ = [w] ∧ s₂ = [x, y, z]) ∨
      (s₁ = [w, x] ∧ s₂ = [y, z]) ∨ (s₁ = [w, x, y] ∧ s₂ = [z]) ∨
      (s₁ = [w, x, y, z] ∧ s₂ = []) := by
  rcases s₁ with _ | ⟨a, _ | ⟨b, _ | ⟨c, _ | ⟨d, t⟩⟩⟩⟩ <;> simp_all

theorem not_dot_prefix_slash_cons {p t : List Char}
    (h : ('.' :: t) <+: '/' :: p) : False := by
  rcases List.cons_prefix_cons.mp h with ⟨hc, -⟩
  exact absurd hc (by decide)

theorem prefixRoot_not_lead_traversal {p r : List Char}
    (hr : ¬ dotDot <:+: r) : ¬ dotDotSlash <+: prefixRoot p r := by
  intro h
  rcases prefix_append_decomp h with h2 | ⟨s, hs, h3⟩
  · exact hr (((by decide : dotDot <+: dotDotSlash).trans h2).isInfix)
  · rcases List.prefix_cons_iff.mp h3 with rfl | ⟨u, rfl, hu⟩
    · rw [List.append_nil] at hs
      exact hr (hs ▸ (by decide : dotDot <:+: dotDotSlash))
    · have hs' : r ++ '/' :: u = ['.', '.', '/'] := by
        simpa [dotDotSlash] using hs.symm
      rcases append_eq_three hs' with ⟨rfl, h5⟩ | ⟨rfl, h5⟩ | ⟨rfl, h5⟩ | ⟨rfl, h5⟩
      · injection h5 with h6 h7
        exact absurd h6 (by decide)
      · injection h5 with h6 h7
        exact absurd h6 (by decide)
      · exact hr (by decide)
      · exact hr (by decide)

theorem prefixRoot_not_embedded {p r : List Char}
    (hp1 : ¬ dotDotSlash <+: p) (hp3 : ¬ slashDotDotSlash <:+: p)
    (hr : ¬ dotDot <:+: r) : ¬ slashDotDotSlash <:+: prefixRoot p r := by
  intro h
  rcases infix_append_decomp h with h2 | h2 | ⟨s₁, s₂, hsp, h1, h2, h3, h4⟩
  · exact hr ((by decide : dotDot <:+: slashDotDotSlash).trans h2)
  · rcases List.infix_cons_iff.mp h2 with h5 | h5
    · have h5' : ('/' :: ['.', '.', '/'] : List Char) <+: '/' :: p := by
        simpa [slashDotDotSlash] using h5
      rcases List.cons_prefix_cons.mp h5' with ⟨-, h6⟩
      exact hp1 (by simpa [dotDotSlash] using h6)
    · exact hp3 h5
  · have hs' : s₁ ++ s₂ = ['/', '.', '.', '/'] := by
      simpa [slashDotDotSlash] using hsp.symm
    rcases append_eq_four hs' with ⟨rfl, -⟩ | ⟨rfl, rfl⟩ | ⟨rfl, rfl⟩ |
      ⟨rfl, rfl⟩ | ⟨-, rfl⟩
    · exact h1 rfl
    · exact not_dot_prefix_slash_cons h4
    · exact not_dot_prefix_slash_cons h4
    · exact hr ((by decide : dotDot <:+: (['/', '.', '.'] : List Char)).trans
        h3.isInfix)
    · exact h2 rfl

theorem prefixRoot_trailing_iff {p r : List Char}
    (hp2 : ¬ slashDotDot <:+ p) :
    slashDotDot <:+ prefixRoot p r ↔ p = dotDot := by
  constructor
  · intro h
    rcases suffix_append_decomp h with h2 | ⟨s, hs, h3⟩
    · rcases List.suffix_cons_iff.mp h2 with h4 | h4
      · have h5 : p = ['.', '.'] := by simpa [slashDotDot] using h4.symm
        simpa [dotDot] using h5
      · exact absurd h4 hp2
    · have hs' : s ++ '/' :: p = ['/', '.', '.'] := by
        simpa [slashDotDot] using hs.symm
      rcases append_eq_three hs' with ⟨rfl, h5⟩ | ⟨rfl, h5⟩ | ⟨rfl, h5⟩ | ⟨rfl, h5⟩
      · have h7 : p = ['.', '.'] := by injection h5
        simpa [dotDot] using h7
      · injection h5 with h6 h7
        exact absurd h6 (by decide)
      · injection h5 with h6 h7
        exact absurd h6 (by decide)
      · exact absurd h5 (by simp)
  · rintro rfl
    have h0 : prefixRoot dotDot r = r ++ slashDotDot := by
      simp [prefixRoot, dotDot, slashDotDot]
    rw [h0]
    exact List.suffix_append r slashDotDot

theorem prefixRoot_no_dotdot {p r : List Char} (hr : ¬ dotDot <:+: r)
    (hp : ¬ dotDot <:+: p) : ¬ dotDot <:+: prefixRoot p r := by
  intro h
  rcases infix_append_decomp h with h2 | h2 | ⟨s₁, s₂, hsp, h1, h2, h3, h4⟩
  · exact hr h2
  · rcases List.infix_cons_iff.mp h2 with h5 | h5
    · exact @not_dot_prefix_slash_cons p ['.'] h5
    · exact hp h5
  · have hs' : s₁ ++ s₂ = ['.', '.'] := by simpa [dotDot] using hsp.symm
    rcases append_eq_two hs' with ⟨rfl, -⟩ | ⟨rfl, rfl⟩ | ⟨-, rfl⟩
    · exact h1 rfl
    · exact not_dot_prefix_slash_cons h4
    · exact h2 rfl

/-! ## Claim C2 -/

/-- C2, counterexample: the string a../b contains the substring ../ (so the
claim says it must be rejected), yet the validation accepts it unchanged,
because the code only checks for a leading ../, a trailing /.. and an
embedded /../ pattern. -/
theorem c2_counterexample :
    dotDotSlash <:+: ['a', '.', '.', '/', 'b'] ∧
    safeResourcePath_try_from ['a', '.', '.', '/', 'b'] =
      .ok ['a', '.', '.', '/', 'b'] := by
  exact ⟨by decide, rfl⟩

/-- C2, amended: SafeResourcePath validation rejects a string (with a
TraversalError) if and only if it starts with the substring ../, contains
/../, or ends with /..; every other string, including absolute paths and
the empty string, is accepted unchanged. -/
theorem c2_validation_characterization (s : List Char) :
    (safeResourcePath_try_from s = .error .mk ↔
      (dotDotSlash <+: s ∨ slashDotDot <:+ s ∨ slashDotDotSlash <:+: s)) ∧
    (safeResourcePath_try_from s = .ok s ↔
      ¬ (dotDotSlash <+: s ∨ slashDotDot <:+ s ∨ slashDotDotSlash <:+: s)) :=
  ⟨try_from_error_iff s, try_from_ok_iff s⟩

/-! ## Claim C3 -/

/-- C3, counterexample: the bare string .. is accepted by the validation,
and prefixing it with the dot-free trusted root r yields r/.. which
contains .. and even ends with the traversal segment /..; moreover the
accepted string a..b yields a prefixed path containing the substring .. as
well, so the claimed result never contains .. fails twice over. -/
theorem c3_counterexample :
    (safeResourcePath_try_from ['.', '.'] = .ok ['.', '.'] ∧
     ¬ dotDot <:+: (['r'] : List Char) ∧
     dotDot <:+: prefixRoot ['.', '.'] ['r'] ∧
     slashDotDot <:+ prefixRoot ['.', '.'] ['r']) ∧
    (safeResourcePath_try_from ['a', '.', '.', 'b'] = .ok ['a', '.', '.', 'b'] ∧
     dotDot <:+: prefixRoot ['a', '.', '.', 'b'] ['r']) := by
  exact ⟨⟨rfl, by decide, by decide, by decide⟩, rfl, by decide⟩

/-- C3, amended: for every successfully validated path p and every trusted
root r containing no .. substring, the prefixed string r/p never starts
with ../ and never contains /../; it ends with /.. exactly when p is the
bare string ..; and whenever p itself contains no .. substring, the
prefixed string contains no .. at all. -/
theorem c3_prefixRoot_traversal_free (p r : List Char)
    (hp : safeResourcePath_try_from p = .ok p)
    (hr : strContains dotDot r = false) :
    ¬ dotDotSlash <+: prefixRoot p r ∧
    ¬ slashDotDotSlash <:+: prefixRoot p r ∧
    (slashDotDot <:+ prefixRoot p r ↔ p = dotDot) ∧
    (strContains dotDot p = false → ¬ dotDot <:+: prefixRoot p r) := by
  rw [try_from_ok_iff] at hp
  push_neg at hp
  obtain ⟨hp1, hp2, hp3⟩ := hp
  rw [strContains_eq_false_iff] at hr
  exact ⟨prefixRoot_not_lead_traversal hr,
    prefixRoot_not_embedded hp1 hp3 hr,
    prefixRoot_trailing_iff hp2,
    fun hp4 => prefixRoot_no_dotdot hr (strContains_eq_false_iff.mp hp4)⟩

/-- C3, witness: the theorem applied to the concrete validated path a and
the concrete dot-free root root. -/
theorem c3_witness :
    safeResourcePath_try_from ['a'] = .ok ['a'] ∧
    strContains dotDot ['r', 'o', 'o', 't'] = false ∧
    (¬ dotDotSlash <+: prefixRoot ['a'] ['r', 'o', 'o', 't'] ∧
     ¬ slashDotDotSlash <:+: prefixRoot ['a'] ['r', 'o', 'o', 't'] ∧
     (slashDotDot <:+ prefixRoot ['a'] ['r', 'o', 'o', 't'] ↔ ['a'] = dotDot) ∧
     (strContains dotDot ['a'] = false →
       ¬ dotDot <:+: prefixRoot ['a'] ['r', 'o', 'o', 't'])) :=
  ⟨rfl, rfl, c3_prefixRoot_traversal_free ['a'] ['r', 'o', 'o', 't'] rfl rfl⟩

/-! ## Claim C1 -/

/-- C1, counterexample: a successfully authenticated logout request whose
backing-store logout call fails produces the plain 500 response, which sets
no cookie at all, so neither user_name nor auth_token is cleared. -/
theorem c1_counterexample :
    (handle_result "/d" (logout_handler "/d" (.ok ⟨"alice", false⟩)
        (.error "database error"))).cookies = [] ∧
    (handle_result "/d" (logout_handler "/d" (.ok ⟨"alice", false⟩)
        (.error "database error"))).status = 500 :=
  ⟨rfl, rfl⟩

/-- C1, amended: for an authenticated logout request, the response clears
both the user_name and auth_token cookies with Max-Age 0 when the backing
store's logout call succeeds; when the logout call returns an error the
handler instead fails with InternalServerError and clears neither
cookie. -/
theorem c1_logout_cookie_behavior (pfx : String) (u : Authenticated)
    (lr : Except String Unit) :
    logout_handler pfx (.ok u) lr =
      (match lr with
       | .ok _ => .ok (((redirect (pfx ++ "/login") .SeeOther).set_cookie
            "user_name" "" (some 0)).set_cookie "auth_token" "" (some 0))
       | .error _ => .error .InternalServerError) ∧
    (((redirect (pfx ++ "/login") .SeeOther).set_cookie "user_name" ""
        (some 0)).set_cookie "auth_token" "" (some 0)).cookies =
      [("user_name", "", some 0), ("auth_token", "", some 0)] := by
  refine ⟨?_, rfl⟩
  cases lr with
  | ok v => rfl
  | error e => rfl

/-! ## Claim C4 -/

/-- C4: the exit-code protocol of a dynamic app's entry point: spawn
failure, termination by signal, any exit code other than 0 and 1, and exit
0 with non-UTF-8 stdout all yield InternalServerError (a 500 response),
while exit code 1 yields Forbidden (a 403 response) regardless of the
stderr contents. -/
theorem c4_exit_code_protocol (pfx m : String) (out : Output) (k : Int) :
    open_dynamic none = .error .InternalServerError ∧
    (out.status = some 1 →
      open_dynamic (some out) =
        .error (.Forbidden "You are not allowed to access this application")) ∧
    (out.status = some k → k ≠ 0 → k ≠ 1 →
      open_dynamic (some out) = .error .InternalServerError) ∧
    (out.status = none →
      open_dynamic (some out) = .error .InternalServerError) ∧
    (out.status = some 0 → utf8Decode out.stdout = none →
      open_dynamic (some out) = .error .InternalServerError) ∧
    ((Error.Forbidden m).response pfx).status = 403 ∧
    (Error.InternalServerError.response pfx).status = 500 := by
  refine ⟨rfl, ?_, ?_, ?_, ?_, rfl, rfl⟩
  · intro h1
    cases hd : utf8Decode out.stderr <;> simp [open_dynamic, h1, hd]
  · intro hk h0 h1
    cases hd : utf8Decode out.stderr <;>
      simp only [open_dynamic, hk, hd] <;>
      rw [if_neg (by simp [h0])] <;>
      split <;> simp_all
  · intro h
    cases hd : utf8Decode out.stderr <;> simp [open_dynamic, h, hd]
  · intro h0 hdec
    simp [open_dynamic, h0, hdec]

/-- C4, witness: the theorem applied at a concrete output for each case of
the protocol: exit 1 with unreadable stderr, exit 2, death by signal, and
exit 0 with a stdout that is not valid UTF-8. -/
theorem c4_witness :
    open_dynamic (some ⟨some 1, [], [216]⟩) =
      .error (.Forbidden "You are not allowed to access this application") ∧
    open_dynamic (some ⟨some 2, [], []⟩) = .error .InternalServerError ∧
    open_dynamic (some ⟨none, [], []⟩) = .error .InternalServerError ∧
    open_dynamic (some ⟨some 0, [137], []⟩) = .error .InternalServerError :=
  ⟨(c4_exit_code_protocol "" "" ⟨some 1, [], [216]⟩ 2).2.1 rfl,
   (c4_exit_code_protocol "" "" ⟨some 2, [], []⟩ 2).2.2.1 rfl (by decide)
     (by decide),
   (c4_exit_code_protocol "" "" ⟨none, [], []⟩ 2).2.2.2.1 rfl,
   (c4_exit_code_protocol "" "" ⟨some 0, [137], []⟩ 2).2.2.2.2.1 rfl rfl⟩

/-! ## Claim C5 -/

/-- C5, counterexample: an entry point that exits 0 with the stdout
https-colon-slash-slash-x-slash followed by a newline redirects to that
whole string, newline included; the trimmed form the claim demands differs
from it, so the returned URL is not the trimmed stdout. -/
theorem c5_counterexample :
    open_dynamic (some ⟨some 0, asciiBytes "https://x/\n", []⟩) =
      .ok "https://x/\n" ∧
    trimSpec ("https://x/\n" : String).data = ("https://x/" : String).data ∧
    ("https://x/\n" : String) ≠ "https://x/" := by
  refine ⟨rfl, by decide, by decide⟩

/-- C5, amended: when the entry point exits 0 and its standard output is
valid UTF-8, the redirect URL is exactly the entire decoded standard
output, with no whitespace trimming applied. -/
theorem c5_redirect_is_entire_stdout (out : Output) (cs : List Char)
    (h0 : out.status = some 0) (hdec : utf8Decode out.stdout = some cs) :
    open_dynamic (some out) = .ok (String.mk cs) ∧
    open_app_entry .Dynamic (some out) =
      .ok (redirect (String.mk cs) .Temporary) := by
  have h1 : open_dynamic (some out) = .ok (String.mk cs) := by
    simp [open_dynamic, h0, hdec]
  exact ⟨h1, by simp [open_app_entry, h1, Except.map]⟩

/-- C5, witness: the theorem applied to a concrete exit-0 output whose
stdout holds an ASCII URL. -/
theorem c5_witness :
    open_dynamic (some ⟨some 0, asciiBytes "https://x/", []⟩) =
      .ok "https://x/" ∧
    open_app_entry .Dynamic (some ⟨some 0, asciiBytes "https://x/", []⟩) =
      .ok (redirect "https://x/" .Temporary) :=
  c5_redirect_is_entire_stdout ⟨some 0, asciiBytes "https://x/", []⟩
    "https://x/".data rfl rfl

/-! ## Claim C6 -/

/-- C6: on a BadUserPassword credential failure, the literal name admin
triggers the signup bootstrap, where a UserExists failure yields
RedirectToLogin, a DatabaseError failure yields InternalServerError, and a
success issues the session cookies; any other name yields RedirectToLogin
for every possible signup outcome, i.e. without consulting signup at
all. -/
theorem c6_admin_bootstrap (pfx name password e : String)
    (s : Except InsertError String) :
    (name = "admin" →
      login_post pfx name password (.error .BadUserPassword)
          (.error .UserExists) = .error .RedirectToLogin ∧
      login_post pfx name password (.error .BadUserPassword)
          (.error (.DatabaseError e)) = .error .InternalServerError ∧
      ∀ cookie, login_post pfx name password (.error .BadUserPassword)
          (.ok cookie) =
        .ok (((redirect pfx .SeeOther).set_cookie "user_name" name
          (some 31536000)).set_cookie "auth_token" cookie (some 31536000))) ∧
    (name ≠ "admin" →
      login_post pfx name password (.error .BadUserPassword) s =
        .error .RedirectToLogin) := by
  constructor
  · rintro rfl
    exact ⟨by simp [login_post], by simp [login_post],
      fun cookie => by simp [login_post]⟩
  · intro hn
    simp [login_post, hn]

/-- C6, witness: the theorem applied at the reserved name admin for both
signup failure kinds and at the ordinary name bob. -/
theorem c6_witness :
    login_post "/d" "admin" "pw" (.error .BadUserPassword)
        (.error .UserExists) = .error .RedirectToLogin ∧
    login_post "/d" "admin" "pw" (.error .BadUserPassword)
        (.error (.DatabaseError "io")) = .error .InternalServerError ∧
    login_post "/d" "bob" "pw" (.error .BadUserPassword)
        (.error .UserExists) = .error .RedirectToLogin :=
  ⟨((c6_admin_bootstrap "/d" "admin" "pw" "io" (.error .UserExists)).1 rfl).1,
   ((c6_admin_bootstrap "/d" "admin" "pw" "io" (.error .UserExists)).1
     rfl).2.1,
   (c6_admin_bootstrap "/d" "bob" "pw" "io" (.error .UserExists)).2
     (by decide)⟩

/-! ## Claim C7 -/

/-- C7: the two authentication-failure policies: the API policy maps
MissingCookies, BadCookies and NoUserRegistered to NotAuthorized (401),
InternalError to InternalServerError (500) and InvalidUserName to
InvalidData (400); the view policy maps MissingCookies, BadCookies and
InvalidUserName to RedirectToLogin, NoUserRegistered to
RedirectToRegistration (a 303 redirect to the login page with the
uninitialized fragment) and InternalError to InternalServerError (500). -/
theorem c7_auth_policies (pfx m : String) :
    (api_auth .MissingCookies = .NotAuthorized ∧
     api_auth .BadCookies = .NotAuthorized ∧
     api_auth .NoUserRegistered = .NotAuthorized ∧
     api_auth .InternalError = .InternalServerError ∧
     api_auth .InvalidUserName = .InvalidData "invalid user name") ∧
    (view_auth .MissingCookies = .RedirectToLogin ∧
     view_auth .BadCookies = .RedirectToLogin ∧
     view_auth .InvalidUserName = .RedirectToLogin ∧
     view_auth .NoUserRegistered = .RedirectToRegistration ∧
     view_auth .InternalError = .InternalServerError) ∧
    ((Error.NotAuthorized.response pfx).status = 401 ∧
     (Error.InternalServerError.response pfx).status = 500 ∧
     ((Error.InvalidData m).response pfx).status = 400 ∧
     (Error.RedirectToLogin.response pfx).status = 303 ∧
     (Error.RedirectToLogin.response pfx).location = some (pfx ++ "/login") ∧
     (Error.RedirectToRegistration.response pfx).status = 303 ∧
     (Error.RedirectToRegistration.response pfx).location =
       some (pfx ++ "/login#uninitialized=true")) :=
  ⟨⟨rfl, rfl, rfl, rfl, rfl⟩, ⟨rfl, rfl, rfl, rfl, rfl⟩,
    rfl, rfl, rfl, rfl, rfl, rfl, rfl⟩

/-! ## Claim C8 -/

/-- C8: a database-level failure of the credential check, either failing
to retrieve the user or failing to set the authentication cookie, yields
RedirectToLogin, and for a non-admin name this is the very same result as a
wrong-password failure. -/
theorem c8_db_error_indistinguishable (pfx name password e : String)
    (s : Except InsertError String) :
    login_post pfx name password (.error (.DbGetUserError e)) s =
      .error .RedirectToLogin ∧
    login_post pfx name password (.error (.DbSetCookieError e)) s =
      .error .RedirectToLogin ∧
    (name ≠ "admin" →
      login_post pfx name password (.error (.DbGetUserError e)) s =
        login_post pfx name password (.error .BadUserPassword) s ∧
      login_post pfx name password (.error (.DbSetCookieError e)) s =
        login_post pfx name password (.error .BadUserPassword) s) := by
  refine ⟨rfl, rfl, fun hn => ?_⟩
  constructor <;> simp [login_post, hn]

/-- C8, witness: the theorem applied at the concrete non-admin name bob
with a concrete database error. -/
theorem c8_witness :
    login_post "/d" "bob" "pw" (.error (.DbGetUserError "io"))
        (.error .UserExists) = .error .RedirectToLogin ∧
    login_post "/d" "bob" "pw" (.error (.DbGetUserError "io"))
        (.error .UserExists) =
      login_post "/d" "bob" "pw" (.error .BadUserPassword)
        (.error .UserExists) :=
  ⟨(c8_db_error_indistinguishable "/d" "bob" "pw" "io"
      (.error .UserExists)).1,
   ((c8_db_error_indistinguishable "/d" "bob" "pw" "io"
      (.error .UserExists)).2.2 (by decide)).1⟩

/-! ## Claim C9 -/

/-- C9: a static-asset request with a validated path yields 404 (never
500) when the resolved path does not exist; when the path exists and the
content type is resolved, a read failure yields 500 and a successful read
yields 200 with the file contents as body and the resolved content
type. -/
theorem c9_static_asset_statuses (fs : Fs) (p : String) (ct : Option String)
    (scan : Except Unit String) (c body : String) :
    (fs.pathExists p = false →
      serve_static_abs fs p ct scan = not_found ∧
      (serve_static_abs fs p ct scan).status = 404) ∧
    (not_found.status = 404 ∧ internal_server_error.status = 500) ∧
    (fs.pathExists p = true → resolve_content_type ct scan = .ok c →
      ((∀ msg, read_to_string fs p = .error msg →
         serve_static_abs fs p ct scan = internal_server_error) ∧
       (read_to_string fs p = .ok body →
         serve_static_abs fs p ct scan =
           ((with_status 200).set_body body).set_content_type c))) := by
  refine ⟨?_, ⟨rfl, rfl⟩, ?_⟩
  · intro h
    have hs : serve_static_abs fs p ct scan = not_found := by
      simp [serve_static_abs, h]
    exact ⟨hs, by rw [hs]; rfl⟩
  · intro hex hct
    constructor
    · intro msg hread
      simp [serve_static_abs, hex, hct, hread]
    · intro hread
      simp [serve_static_abs, hex, hct, hread]

/-- C9, witness: the theorem applied to three concrete filesystems: a
missing file, an existing file whose read fails, and an existing readable
file served with its supplied content type. -/
theorem c9_witness :
    (serve_static_abs ⟨fun _ => false, fun _ => .error "io"⟩ "/a" none
        (.ok "text/plain") = not_found ∧
      (serve_static_abs ⟨fun _ => false, fun _ => .error "io"⟩ "/a" none
        (.ok "text/plain")).status = 404) ∧
    serve_static_abs ⟨fun _ => true, fun _ => .error "denied"⟩ "/a" none
        (.ok "text/plain") = internal_server_error ∧
    serve_static_abs ⟨fun _ => true, fun _ => .ok (asciiBytes "hi")⟩ "/a"
        (some "text/html") (.error ()) =
      ((with_status 200).set_body "hi").set_content_type "text/html" :=
  ⟨(c9_static_asset_statuses ⟨fun _ => false, fun _ => .error "io"⟩ "/a"
      none (.ok "text/plain") "text/plain" "hi").1 rfl,
   ((c9_static_asset_statuses ⟨fun _ => true, fun _ => .error "denied"⟩
      "/a" none (.ok "text/plain") "text/plain" "hi").2.2 rfl rfl).1
     "denied" rfl,
   ((c9_static_asset_statuses ⟨fun _ => true, fun _ => .ok (asciiBytes "hi")⟩
      "/a" (some "text/html") (.error ()) "text/html" "hi").2.2 rfl rfl).2
     rfl⟩

/-! ## Claim C10 -/

/-- C10: a static-asset request for an existing file whose bytes are not
valid UTF-8 yields the 500 response, because the contents are read as a
UTF-8 string; and every 200 response serves the decoded contents of a file
whose bytes are valid UTF-8. -/
theorem c10_utf8_only (fs : Fs) (p : String) (ct : Option String)
    (scan : Except Unit String) (bs : List Nat) :
    (fs.pathExists p = true → fs.readBytes p = .ok bs →
      utf8Decode bs = none →
      serve_static_abs fs p ct scan = internal_server_error) ∧
    ((serve_static_abs fs p ct scan).status = 200 →
      ∃ bs' cs, fs.readBytes p = .ok bs' ∧ utf8Decode bs' = some cs ∧
        (serve_static_abs fs p ct scan).body = String.mk cs) := by
  constructor
  · intro hex hrb hdec
    have hread : read_to_string fs p =
        .error "stream did not contain valid UTF-8" := by
      simp [read_to_string, hrb, hdec]
    cases hct : resolve_content_type ct scan with
    | error u => simp [serve_static_abs, hex, hct]
    | ok c => simp [serve_static_abs, hex, hct, hread]
  · by_cases hpe : fs.pathExists p = false
    · have hs : serve_static_abs fs p ct scan = not_found := by
        simp [serve_static_abs, hpe]
      rw [hs]
      intro h200
      exact absurd h200 (by decide)
    · have hpe' : fs.pathExists p = true := by
        cases h : fs.pathExists p
        · exact absurd h hpe
        · rfl
      cases hct : resolve_content_type ct scan with
      | error u =>
        have hs : serve_static_abs fs p ct scan = internal_server_error := by
          simp [serve_static_abs, hpe', hct]
        rw [hs]
        intro h200
        exact absurd h200 (by decide)
      | ok c =>
        cases hrb : fs.readBytes p with
        | error e =>
          have hs : serve_static_abs fs p ct scan = internal_server_error := by
            simp [serve_static_abs, hpe', hct, read_to_string, hrb]
          rw [hs]
          intro h200
          exact absurd h200 (by decide)
        | ok bs' =>
          cases hdec : utf8Decode bs' with
          | none =>
            have hs : serve_static_abs fs p ct scan =
                internal_server_error := by
              simp [serve_static_abs, hpe', hct, read_to_string, hrb, hdec]
            rw [hs]
            intro h200
            exact absurd h200 (by decide)
          | some cs =>
            have hs : serve_static_abs fs p ct scan =
                ((with_status 200).set_body (String.mk cs)).set_content_type
                  c := by
              simp [serve_static_abs, hpe', hct, read_to_string, hrb, hdec]
            rw [hs]
            intro h200
            exact ⟨bs', cs, rfl, hdec, rfl⟩

/-- C10, witness: the theorem applied to a concrete file whose contents
start with the PNG signature byte 137, which is not valid UTF-8. -/
theorem c10_witness :
    serve_static_abs ⟨fun _ => true, fun _ => .ok [137, 80, 78, 71]⟩ "/a"
        (some "image/png") (.error ()) = internal_server_error :=
  (c10_utf8_only ⟨fun _ => true, fun _ => .ok [137, 80, 78, 71]⟩ "/a"
    (some "image/png") (.error ()) [137, 80, 78, 71]).1 rfl rfl rfl

end Route
